import Mathlib

/- A shallow embedding of frospy/spectrum/spectrum_commandline.py: the
interactive spectrum-comparison loop `run` and its helper
`set_defaults_init_main`.  External collaborators (obspy, the controllers
module, the frospy core library, the plotting layer) are not part of the
sources; they enter the model either as oracle parameters (an `Oracles`
record of unconstrained functions) or, where the spec describes their
behaviour, as definitions modelled from the spec.  Machine floats of the
script are modelled as rationals, console output as structured message
values, and the mutable `main` AttribDict as an explicit state record
threaded through the loop stages. -/

namespace Frospy

/-- Trace metadata: the station and channel attributes the loop inspects. -/
structure Stats where
  station : String
  channel : String
deriving DecidableEq, Repr

/-- Seismic trace, as far as the loop inspects it. -/
structure Trace where
  stats : Stats
deriving DecidableEq, Repr

/-- Picked segment: per-station time-window and frequency-window bounds,
one record of the segment file. -/
structure Pick where
  station : String
  tw1 : ℚ
  tw2 : ℚ
  fw1 : ℚ
  fw2 : ℚ
deriving DecidableEq, Repr

/-- Spectrum object: records the arguments of the Spectrum constructor call
of the loop body.  The Fourier transform itself lives in frospy.core and is
outside the sources; its numeric outputs enter through the oracle record. -/
structure SpectrumObj where
  tr : Trace
  tstart : ℚ
  tend : ℚ
  syn : List Trace
  taper : String
  syn_label : Option (List String)
  label : Option String
deriving DecidableEq, Repr

/-- Console lines gathered into the per-station status message. -/
inductive StatusLine
  | currentStation (station channel : String)
  | segmentData (fw1 fw2 tw1 tw2 : ℚ)
  | noPickedSegments (station : String)
  | dataInfo
  | synInfo
deriving DecidableEq, Repr

/-- Lines of the misfit report message. -/
inductive MfLine
  | snr (v : ℚ)
  | sfwhmr (v : ℚ)
  | snrTimesSfwhmr (v : ℚ)
  | sfwhmrError (text : String)
  | overlapWarning
  | misfitsHeader
  | misfitEntry (name : String) (v : ℚ)
deriving DecidableEq, Repr

/-- Messages printed during one pass of the loop. -/
inductive Msg
  | noData
  | endOfSearchScope
  | endOfFile
  | endOfSegments
  | qwindowSet (s e : ℚ)
  | status (lines : List StatusLine)
  | misfitReport (lines : List MfLine)
deriving DecidableEq, Repr

/-- Python list indexing: a negative index counts from the end; an index
that is still out of range raises IndexError, modelled as none. -/
def pyGet (l : List α) (i : ℤ) : Option α :=
  if 0 ≤ i then
    if i < (l.length : ℤ) then l[i.toNat]? else none
  else
    if 0 ≤ i + (l.length : ℤ) then l[(i + (l.length : ℤ)).toNat]? else none

/-- Python truthiness of an optional number: None and 0 are falsy. -/
def optQTruthy : Option ℚ → Bool
  | none => false
  | some q => decide (q ≠ 0)

/-- Python truthiness of an optional list: None and the empty list are falsy. -/
def optListTruthy : Option (List α) → Bool
  | none => false
  | some l => !l.isEmpty

/-- Python truthiness of an optional string: None and the empty string are
falsy. -/
def optStrTruthy : Option String → Bool
  | none => false
  | some s => !s.isEmpty

/-- Stable insertion of a pick into a list sorted by ascending fw2. -/
def insertByFw2 (p : Pick) : List Pick → List Pick
  | [] => [p]
  | q :: rest => if p.fw2 ≤ q.fw2 then p :: q :: rest else q :: insertByFw2 p rest

/-- Stable sort of the segment list by ascending fw2, modelling the in-place
sort keyed on fw2 performed at the top of each pass. -/
def sortSegments (l : List Pick) : List Pick := l.foldr insertByFw2 []

/-- Segment selection by station name. -/
def select (segs : List Pick) (stat : String) : List Pick :=
  segs.filter (fun p => p.station == stat)

/-- Stream selection by station name. -/
def selectTraces (l : List Trace) (stat : String) : List Trace :=
  l.filter (fun t => t.stats.station == stat)

/-- State container: the mutable main AttribDict of the script, restricted
to the fields the sources read or write.  Figure handles, the station
inventory and the mode catalogue are display-only state created by external
libraries and are not modelled.  Field defaults below are only construction
conveniences for concrete test states; the defaults the script applies are
in set_defaults_init_main. -/
structure Main where
  st : List Trace := []
  st_work : List Trace := []
  syn : Option (List (List Trace)) := none
  st_syn : List (List Trace) := []
  st_syn_work : List (List Trace) := []
  syn_trs : List Trace := []
  tr : Option Trace := none
  i : ℤ := 0
  i_old : Option ℤ := none
  j : ℤ := 0
  tw : Option (ℚ × ℚ) := none
  tw_org : Option (ℚ × ℚ) := none
  fw : Option (ℚ × ℚ) := none
  qwindow : Option (ℚ × ℚ) := none
  segments : Option (List Pick) := none
  segment_file : Option String := none
  seg_reference : Bool := false
  set_seg_tw : Bool := true
  set_seg_fw : Bool := false
  spec : Option SpectrumObj := none
  startlabel : Option String := none
  endlabel : Option String := none
  mf : Option (List (ℚ × ℚ)) := none
  rmf : Option (List (ℚ × ℚ)) := none
  cmf : Option (List (ℚ × ℚ)) := none
  min_snr : Option ℚ := none
  max_mf : Option ℚ := none
  recalc : Bool := true
  savefig : Bool := false
  verbose : Bool := false
  nowindow : Bool := true
  current_station : Option String := none
  stream_order : String := "same"
  taper_shape : String := "hanning"
  syn_label : Option (List String) := none
  data_label : Option String := none
  weighting : String := "integrate"
  update_maps : Bool := true
  zoom_sl : ℚ := 5
  save_stream : Option Bool := none
  fs : ℚ := 10
  noisewin : Bool := false
  overlap : Bool := false
  mfac : ℚ := 1
  search : Option String := none
  cmt_file : Option String := none
  cmt_id : Option String := none
deriving DecidableEq, Repr

/-- Oracle record standing for the external collaborators whose code is not
among the sources: the frospy core numeric routines, the controllers module
and the keyboard input processor.  Their outputs are unconstrained
parameters of the model. -/
structure Oracles where
  timewindow : Trace → ((ℚ × ℚ) × Option (ℚ × ℚ))
  freqwindow : ℚ × ℚ
  flabel : SpectrumObj → ℚ → String
  signal2noise : SpectrumObj → Pick → ℚ × ℕ × Bool
  signal2fwhm : SpectrumObj → Pick → Except String ℚ
  misfit : SpectrumObj → Pick → List (ℚ × ℚ)
  process_input : Option Pick → Main → Option (Option Pick × Main)
  load_segments : String → List Pick
  search_stream : String → Main → Main

/-- Modelled from the spec: remove_station is imported from controllers,
which is not among the sources.  Per the spec's account of optional
filtering by signal-to-noise ratio or misfit thresholds, it drops the
current station from the working stream and the synthetic working
streams. -/
def remove_station (m : Main) : Main :=
  match m.tr with
  | none => m
  | some t =>
    { m with
      st_work := m.st_work.filter (fun x => !(x.stats.station == t.stats.station)),
      st_syn_work := m.st_syn_work.map
        (fun s => s.filter (fun x => !(x.stats.station == t.stats.station))) }

/-- Modelled from the spec: plot_spectrum (frospy.core.spectrum.plot, not
among the sources) delegates figure rendering operating on the shared state
container; rendering affects only display state, which is outside the
modelled fields, so on the model it is the identity. -/
def plot_spectrum (m : Main) : Main := m

/-- Wrap-around branches at the top of the loop: ending a search scope
restores the full streams and the saved index, plain end of stream resets
the station index to zero. -/
def wrapStage (m : Main) : Main × List Msg :=
  if (m.st_work.length : ℤ) ≤ m.i then
    match m.i_old with
    | some io =>
      ({ m with
          st_work := m.st,
          st_syn_work := if optListTruthy m.syn then m.st_syn else m.st_syn_work,
          i := io,
          i_old := none }, [Msg.endOfSearchScope])
    | none => ({ m with i := 0 }, [Msg.endOfFile])
  else (m, [])

/-- Segment bookkeeping of the loop head: sort the segments by fw2, count
the picks of the current station, and wrap the segment index when it runs
past a non-empty pick list. -/
def segStage (tr : Trace) (m : Main) : Main × List Msg :=
  match m.segments with
  | none => (m, [])
  | some segs =>
    let sorted := sortSegments segs
    let maxj := (select sorted tr.stats.station).length
    let m := { m with segments := some sorted }
    if (maxj : ℤ) ≤ m.j ∧ maxj ≠ 0 then
      ({ m with j := 0 }, [Msg.endOfSegments])
    else (m, [])

/-- Synthetic trace selection: one trace per synthetic working stream,
either by position (stream order same) or by station name.  Positional
indexing can raise IndexError, which propagates. -/
def synSelect (tr : Trace) (m : Main) : Except String (List Trace) :=
  if optListTruthy m.syn then
    if m.stream_order = "same" then
      m.st_syn_work.foldl
        (fun acc s =>
          match acc, pyGet s m.i with
          | Except.ok l, some t => Except.ok (l ++ [t])
          | Except.ok _, none => Except.error "IndexError: positional synthetic"
          | Except.error e, _ => Except.error e)
        (Except.ok [])
    else
      Except.ok (m.st_syn_work.foldl
        (fun acc s => acc ++ selectTraces s tr.stats.station) [])
  else Except.ok []

/-- Application of a pick to the state: with set_seg_tw the time window is
set to exactly the pick's window, with set_seg_fw the frequency window is
widened by 0.05 mHz on each side. -/
def applyPick (p : Pick) (m : Main) : Main :=
  let m := if m.set_seg_tw then { m with tw := some (p.tw1, p.tw2) } else m
  if m.set_seg_fw then { m with fw := some (p.fw1 - 0.05, p.fw2 + 0.05) } else m

/-- Pick selection for the current station: the j-th pick of the station's
segment list; an out-of-range index raises IndexError, caught by the script,
which leaves the pick as None and records a warning status line. -/
def selectPick (m : Main) (tr : Trace) : Option Pick × Main × List StatusLine :=
  match m.segments with
  | none => (none, m, [])
  | some segs =>
    match pyGet (select segs tr.stats.station) m.j with
    | some p =>
      (some p, applyPick p m,
        [StatusLine.segmentData p.fw1 p.fw2 p.tw1 p.tw2])
    | none => (none, m, [StatusLine.noPickedSegments tr.stats.station])

/-- Defaulting of a missing time window from the timewindow helper. -/
def twDefault (O : Oracles) (tr : Trace) (m : Main) : (ℚ × ℚ) × Main :=
  match m.tw with
  | none =>
    let r := O.timewindow tr
    (r.1, { m with tw := some r.1, tw_org := r.2 })
  | some tw => (tw, m)

/-- Defaulting of a missing frequency window from the freqwindow helper. -/
def fwDefault (O : Oracles) (m : Main) : (ℚ × ℚ) × Main :=
  match m.fw with
  | none => (O.freqwindow, { m with fw := some O.freqwindow })
  | some fw => (fw, m)

/-- Override of the time window by a pending Q-cycle window. -/
def qOverride (tw : ℚ × ℚ) (m : Main) : (ℚ × ℚ) × Main × List Msg :=
  match m.qwindow with
  | some qw =>
    (qw, { m with tw := some qw, qwindow := none },
      [Msg.qwindowSet qw.1 qw.2])
  | none => (tw, m, [])

/-- Window defaulting: fill a missing time window from the timewindow
helper, a missing frequency window from the freqwindow helper, then let a
pending Q-cycle window override the time window.  Returns the concrete
windows together with the updated state and any printed message. -/
def twDefaults (O : Oracles) (tr : Trace) (m : Main) :
    ((ℚ × ℚ) × (ℚ × ℚ)) × Main × List Msg :=
  let twm := twDefault O tr m
  let fwm := fwDefault O twm.2
  let q := qOverride twm.1 fwm.2
  ((q.1, fwm.1), q.2.1, q.2.2)

/-- Status printing: the status message is printed only when the station
changed since the previous pass. -/
def stationPrint (tr : Trace) (m : Main) (status : List StatusLine) :
    Main × List Msg :=
  if m.current_station ≠ some tr.stats.station then
    ({ m with current_station := some tr.stats.station }, [Msg.status status])
  else (m, [])

/-- Spectrum constructor call of the loop body, from the current trace, the
current time window and the selected synthetics. -/
def specFor (tr : Trace) (strs : List Trace) (tw : ℚ × ℚ) (m : Main) :
    SpectrumObj :=
  { tr := tr, tstart := tw.1, tend := tw.2, syn := strs,
    taper := m.taper_shape, syn_label := m.syn_label, label := m.data_label }

/-- Result of the part of the recalc body before the misfit section. -/
structure PreOut where
  pick : Option Pick
  m : Main
  status : List StatusLine
  log : List Msg
  tw : ℚ × ℚ
  fw : ℚ × ℚ
deriving Repr

/-- Reset of the time window from its reference copy at the top of the
recalc body. -/
def twReset (m : Main) : Main :=
  match m.tw_org with
  | some two => { m with tw := some two }
  | none => m

/-- Recalc body up to (not including) the spectrum construction: reset the
time window from its reference copy, select and apply the pick, assemble
the status message, default the windows and print the status on a station
change. -/
def preMisfit (O : Oracles) (tr : Trace) (m : Main) : PreOut :=
  let m := twReset m
  let ps := selectPick m tr
  let status :=
    [StatusLine.currentStation tr.stats.station tr.stats.channel] ++ ps.2.2 ++
      (if ps.2.1.verbose then [StatusLine.dataInfo, StatusLine.synInfo] else [])
  let td := twDefaults O tr ps.2.1
  let sp := stationPrint tr td.2.1 status
  { pick := ps.1, m := sp.1, status := status, log := td.2.2 ++ sp.2,
    tw := td.1.1, fw := td.1.2 }

/-- Control outcome of the recalc body. -/
inductive RCtl
  | proceed
  | removedSnr
  | removedMf
  | crashed (e : String)
deriving DecidableEq, Repr

/-- Result of the recalc body. -/
structure RecalcOut where
  ctl : RCtl
  m : Main
  pick : Option Pick
  status : List StatusLine
  log : List Msg
deriving Repr

/-- Misfit report lines pairing the synthetic traces with the misfit list. -/
def mfEntries : List Trace → List (ℚ × ℚ) → List MfLine
  | t :: ts, c :: cs => MfLine.misfitEntry t.stats.station c.2 :: mfEntries ts cs
  | _, _ => []

/-- Plotting step at the end of the recalc body, skipped when no display
window is available. -/
def plotStep (m : Main) : Main :=
  if !m.nowindow then plot_spectrum m else m

/-- Store-and-report step for a freshly computed misfit list: when it
differs from the stored one, store it and print the report message. -/
def mfUpdate (mf : List (ℚ × ℚ)) (lines : List MfLine) (m : Main) :
    Main × List Msg :=
  if m.mf ≠ some mf then
    ({ m with mf := some mf }, [Msg.misfitReport lines])
  else (m, [])

/-- Report lines of the misfit message: SNR, the FWHM quality number or the
text of the exception it raised, the overlap warning, and one line per
synthetic misfit. -/
def mfLines (O : Oracles) (strs : List Trace) (spec : SpectrumObj) (p : Pick) :
    List MfLine :=
  [MfLine.snr (O.signal2noise spec p).1] ++
    (match O.signal2fwhm spec p with
     | Except.ok f =>
       [MfLine.sfwhmr f, MfLine.snrTimesSfwhmr ((O.signal2noise spec p).1 * f)]
     | Except.error e => [MfLine.sfwhmrError e]) ++
    (if (O.signal2noise spec p).2.2 then [MfLine.overlapWarning] else []) ++
    [MfLine.misfitsHeader] ++ mfEntries strs (O.misfit spec p)

/-- Misfit section of the recalc body, entered when a pick exists and
synthetics are loaded: compute SNR, the FWHM-based quality number (whose
exceptions are caught and reported inline) and the misfit list, report them
when the misfit changed, then apply the optional SNR and misfit threshold
filters, which remove the station and continue the loop. -/
def misfitSection (O : Oracles) (strs : List Trace) (spec : SpectrumObj)
    (p : Pick) (pm : PreOut) (m : Main) : RecalcOut :=
  let snr := (O.signal2noise spec p).1
  let mf := O.misfit spec p
  let mm := mfUpdate mf (mfLines O strs spec p) m
  let m := mm.1
  let log := pm.log ++ mm.2
  if optQTruthy m.min_snr ∧ snr < m.min_snr.getD 0 then
    { ctl := RCtl.removedSnr, m := remove_station m, pick := some p,
      status := pm.status, log := log }
  else if optQTruthy m.max_mf then
    match mf with
    | c :: _ =>
      if m.max_mf.getD 0 < c.2 then
        { ctl := RCtl.removedMf, m := remove_station m, pick := some p,
          status := pm.status, log := log }
      else
        { ctl := RCtl.proceed, m := plotStep m, pick := some p,
          status := pm.status, log := log }
    | [] =>
      { ctl := RCtl.crashed "IndexError: empty misfit list", m := m,
        pick := some p, status := pm.status, log := log }
  else
    { ctl := RCtl.proceed, m := plotStep m, pick := some p,
      status := pm.status, log := log }

/-- Recalc body of the loop: everything guarded by the recalc flag.  After
the pre-misfit pipeline it constructs the spectrum object and, when a pick
exists and synthetics are loaded, runs the misfit section; otherwise it
goes straight to the plotting step. -/
def recalcStage (O : Oracles) (tr : Trace) (strs : List Trace) (m : Main) :
    RecalcOut :=
  let pm := preMisfit O tr m
  let spec := specFor tr strs pm.tw pm.m
  let m := { pm.m with
    spec := some spec,
    startlabel := some (O.flabel spec pm.fw.1),
    endlabel := some (O.flabel spec pm.fw.2) }
  match pm.pick with
  | some p =>
    match m.syn with
    | some _ => misfitSection O strs spec p pm m
    | none =>
      { ctl := RCtl.proceed, m := plotStep m, pick := some p,
        status := pm.status, log := pm.log }
  | none =>
    { ctl := RCtl.proceed, m := plotStep m, pick := none,
      status := pm.status, log := pm.log }

/-- Spectrum object the recalc body constructs: the current trace, the
current time window after pick application and defaulting, and the selected
synthetics. -/
def builtSpec (O : Oracles) (tr : Trace) (strs : List Trace) (m : Main) :
    SpectrumObj :=
  specFor tr strs (preMisfit O tr m).tw (preMisfit O tr m).m

/-- Control outcome of one pass of the while loop. -/
inductive Ctl
  | breakNoData
  | breakQuit
  | next
  | removedSnr
  | removedMf
  | crashed (e : String)
deriving DecidableEq, Repr

/-- Whether a control outcome goes on to another pass of the loop. -/
def Ctl.continues : Ctl → Bool
  | Ctl.next => true
  | Ctl.removedSnr => true
  | Ctl.removedMf => true
  | _ => false

/-- Result of one pass of the while loop: control outcome, state, the pick
variable, the messages printed, and whether the pass consulted the keyboard
input processor. -/
structure IterResult where
  ctl : Ctl
  m : Main
  pick : Option Pick
  log : List Msg
  asked : Bool
deriving Repr

/-- Prepend messages to a pass result. -/
def withLog (l : List Msg) (r : IterResult) : IterResult :=
  { r with log := l ++ r.log }

/-- State handed to the input processor: the recalc flag is re-established
and the savefig flag cleared before every input wait. -/
def preInputState (m : Main) : Main :=
  { m with recalc := true, savefig := false }

/-- Input wait of the loop: a None reply means quit, anything else is the
new pick and state for the next pass. -/
def inputStage (O : Oracles) (pick : Option Pick) (m : Main) : IterResult :=
  match O.process_input pick (preInputState m) with
  | none =>
    { ctl := Ctl.breakQuit, m := preInputState m, pick := pick, log := [],
      asked := true }
  | some out =>
    { ctl := Ctl.next, m := out.2, pick := out.1, log := [], asked := true }

/-- Loop pass after the wrap-around branches: select the current trace,
maintain the segment index, select the synthetics, run the recalc body when
the recalc flag is set, then wait for input unless a threshold filter
already continued the loop. -/
def iterBody (O : Oracles) (pick : Option Pick) (m : Main) : IterResult :=
  match pyGet m.st_work m.i with
  | none =>
    { ctl := Ctl.crashed "IndexError: station index", m := m, pick := pick,
      log := [], asked := false }
  | some tr =>
    let m := { m with tr := some tr, syn_trs := [] }
    let sg := segStage tr m
    let m := sg.1
    match synSelect tr m with
    | Except.error e =>
      { ctl := Ctl.crashed e, m := m, pick := pick, log := sg.2,
        asked := false }
    | Except.ok strs =>
      let m := { m with syn_trs := strs }
      if m.recalc then
        let r := recalcStage O tr strs m
        match r.ctl with
        | RCtl.proceed => withLog (sg.2 ++ r.log) (inputStage O r.pick r.m)
        | RCtl.removedSnr =>
          { ctl := Ctl.removedSnr, m := r.m, pick := r.pick,
            log := sg.2 ++ r.log, asked := false }
        | RCtl.removedMf =>
          { ctl := Ctl.removedMf, m := r.m, pick := r.pick,
            log := sg.2 ++ r.log, asked := false }
        | RCtl.crashed e =>
          { ctl := Ctl.crashed e, m := r.m, pick := r.pick,
            log := sg.2 ++ r.log, asked := false }
      else withLog sg.2 (inputStage O pick m)

/-- One pass of the while loop of run. -/
def loopIter (O : Oracles) (pick : Option Pick) (m : Main) : IterResult :=
  if m.st_work.isEmpty then
    { ctl := Ctl.breakNoData, m := m, pick := pick, log := [Msg.noData],
      asked := false }
  else
    let w := wrapStage m
    withLog w.2 (iterBody O pick w.1)

/-- Outcome of running the loop with a fuel bound: a normal return carries
the final segments value, an uncaught exception propagates, and exhausted
fuel reports the state reached. -/
inductive RunResult
  | ret (segments : Option (List Pick))
  | crashed (e : String)
  | fuelOut (m : Main)
deriving DecidableEq, Repr

/-- While loop of run: iterate passes until a break, then return the
segments of the state at the break. -/
def runLoop (O : Oracles) : ℕ → Option Pick → Main → RunResult
  | 0, _, m => RunResult.fuelOut m
  | n + 1, pick, m =>
    let r := loopIter O pick m
    match r.ctl with
    | Ctl.breakNoData => RunResult.ret r.m.segments
    | Ctl.breakQuit => RunResult.ret r.m.segments
    | Ctl.crashed e => RunResult.crashed e
    | Ctl.next => runLoop O n r.pick r.m
    | Ctl.removedSnr => runLoop O n r.pick r.m
    | Ctl.removedMf => runLoop O n r.pick r.m

/-- Defaults applied to the main state before the loop, mirroring the
helper of the script line by line; figure handles and the mode catalogue
are display-only and outside the model. -/
def set_defaults_init_main (main : Main) : Main :=
  let main := { main with
    recalc := true, weighting := "integrate", update_maps := true,
    zoom_sl := 5 }
  let main :=
    match main.save_stream with
    | none => { main with save_stream := some false }
    | some _ => main
  let main := { main with
    fs := 10, noisewin := false, overlap := false, current_station := none,
    segments := none, rmf := none, cmf := none, mf := none, mfac := 1,
    savefig := false }
  let main :=
    match main.tw with
    | some tw => { main with tw_org := some tw }
    | none => { main with tw_org := none }
  let main := { main with qwindow := none, min_snr := none, max_mf := none }
  let main :=
    if main.seg_reference then
      { main with set_seg_fw := !main.fw.isSome, set_seg_tw := true }
    else
      { main with set_seg_fw := false, set_seg_tw := true }
  { main with i := 0, i_old := none, j := 0 }

/-- Stream data produced by the input loader. -/
structure DataIn where
  st : List Trace
  st_syn : List (List Trace)
  syn : Option (List (List Trace))
deriving DecidableEq, Repr

/-- Modelled from the spec: read_data is imported from controllers, which
is not among the sources.  Per the spec's input-loader description it loads
the seismic streams and the synthetic streams into the state, the working
copies starting equal to the full streams. -/
def read_data (d : DataIn) (main : Main) : Main :=
  { main with
    st := d.st, st_work := d.st, st_syn := d.st_syn,
    st_syn_work := d.st_syn, syn := d.syn }

/-- Preparation before the loop: apply the defaults, load the segment file
when one is given, load the streams, and optionally narrow the working
stream by the search argument. -/
def runSetup (O : Oracles) (d : DataIn) (iargs : Main) : Main :=
  let main := set_defaults_init_main iargs
  let main :=
    match main.segment_file with
    | some f => { main with segments := some (O.load_segments f) }
    | none => main
  let main := read_data d main
  if optStrTruthy main.search then
    O.search_stream (main.search.getD "") main
  else main

/-- Entry point of the script: prepare the state, then run the while loop
with the pick variable starting as None. -/
def run (O : Oracles) (d : DataIn) (fuel : ℕ) (iargs : Main) : RunResult :=
  runLoop O fuel none (runSetup O d iargs)

/- Concrete fixtures used by the witness and counterexample theorems. -/

/-- Fixture trace at station ABC. -/
def trA : Trace := { stats := { station := "ABC", channel := "LHZ" } }

/-- Fixture trace at station XYZ. -/
def trB : Trace := { stats := { station := "XYZ", channel := "LHZ" } }

/-- Fixture pick for station ABC. -/
def pA : Pick := { station := "ABC", tw1 := 5, tw2 := 40, fw1 := 1, fw2 := 2 }

/-- Fixture oracle with fixed outputs for every external call. -/
def oracle0 : Oracles where
  timewindow := fun _ => ((0, 1), some (0, 1))
  freqwindow := (1, 2)
  flabel := fun _ _ => ""
  signal2noise := fun _ _ => (1, 1, false)
  signal2fwhm := fun _ _ => Except.ok 1
  misfit := fun _ _ => [(0, 7)]
  process_input := fun p m => some (p, m)
  load_segments := fun _ => [pA]
  search_stream := fun _ m => m

/-- Fixture oracle whose input processor always quits. -/
def oracleQuit : Oracles :=
  { oracle0 with process_input := fun _ _ => none }

/-- Fixture oracle whose FWHM computation raises an exception. -/
def oracleErr : Oracles :=
  { oracle0 with signal2fwhm := fun _ _ => Except.error "no data" }

/-- Fixture state: one station loaded, no segments, no synthetics. -/
def mQuiet : Main :=
  { st := [trA], st_work := [trA], tw := some (0, 10), tw_org := some (0, 10) }

/-- Fixture state whose working stream is empty. -/
def mEmpty : Main := { mQuiet with st_work := [] }

/-- Fixture state with synthetics, a pick for the current station and an
SNR threshold the fixture oracle's SNR fails. -/
def mThresh : Main :=
  { mQuiet with
    syn := some [[trA]], st_syn := [[trA]], st_syn_work := [[trA]],
    segments := some [pA], min_snr := some 5 }

/-- Fixture input data whose data stream is empty. -/
def dIn0 : DataIn := { st := [], st_syn := [], syn := none }

/-- Fixture entry arguments without a segment file. -/
def argsNoSeg : Main := { segment_file := none }

/- Theorems settling the claims. -/

/-- C2: in every loop pass of run in which the working stream is non-empty,
the station index is at least the length of the working stream, and no
saved index exists, the pass wraps around by resetting the station index to
zero: it prints the end-of-file notice and then behaves as the loop body
run from the state with the station index reset to 0. -/
theorem C2_wrap_to_start (O : Oracles) (pick : Option Pick) (m : Main)
    (hne : m.st_work ≠ [])
    (hlen : (m.st_work.length : ℤ) ≤ m.i)
    (hold : m.i_old = none) :
    loopIter O pick m =
      withLog [Msg.endOfFile] (iterBody O pick { m with i := 0 }) := by
  have hempty : m.st_work.isEmpty = false := by
    rcases List.exists_cons_of_ne_nil hne with ⟨a, l, h⟩
    rw [h]
    rfl
  unfold loopIter wrapStage
  simp [hempty, hold, if_pos hlen]

/-- Witness for C2 at a concrete state with one station and index 5. -/
theorem C2_wrap_to_start_witness :
    loopIter oracle0 none { mQuiet with i := 5 } =
      withLog [Msg.endOfFile]
        (iterBody oracle0 none { { mQuiet with i := 5 } with i := 0 }) :=
  C2_wrap_to_start oracle0 none { mQuiet with i := 5 } (by decide) (by decide)
    rfl

/-- C3: in every loop pass of run in which the station index is at least
the length of the working stream and a saved index exists (end of a search
scope), the working stream is restored to the full data stream (and the
synthetic working streams to the full synthetic streams exactly when
synthetics are loaded), the station index is set back to the saved index,
and the saved index is cleared; the pass then behaves as the loop body run
from that restored state. -/
theorem C3_end_of_search_scope (O : Oracles) (pick : Option Pick) (m : Main)
    (io : ℤ)
    (hne : m.st_work ≠ [])
    (hlen : (m.st_work.length : ℤ) ≤ m.i)
    (hold : m.i_old = some io) :
    loopIter O pick m =
      withLog [Msg.endOfSearchScope]
        (iterBody O pick
          { m with
            st_work := m.st,
            st_syn_work :=
              if optListTruthy m.syn then m.st_syn else m.st_syn_work,
            i := io,
            i_old := none }) := by
  have hempty : m.st_work.isEmpty = false := by
    rcases List.exists_cons_of_ne_nil hne with ⟨a, l, h⟩
    rw [h]
    rfl
  unfold loopIter wrapStage
  simp [hempty, hold, if_pos hlen]

/-- Witness for C3 at a concrete state with saved index 0. -/
theorem C3_end_of_search_scope_witness :
    loopIter oracle0 none { mQuiet with i := 5, i_old := some 0 } =
      withLog [Msg.endOfSearchScope]
        (iterBody oracle0 none
          { { mQuiet with i := 5, i_old := some 0 } with
            st_work := mQuiet.st,
            st_syn_work :=
              if optListTruthy mQuiet.syn then mQuiet.st_syn
              else mQuiet.st_syn_work,
            i := 0,
            i_old := none }) :=
  C3_end_of_search_scope oracle0 none { mQuiet with i := 5, i_old := some 0 }
    0 (by decide) (by decide) rfl

/-- C6: in every loop pass with segments loaded, when the segment index is
at least the number of picks selected for the current station and that
number is non-zero, the segment index wraps to zero (alongside the fw2 sort
of the segments and the end-of-segments notice); when the station has zero
picks, the segment index is left unchanged. -/
theorem C6_segment_wrap (tr : Trace) (m : Main) (segs : List Pick)
    (hseg : m.segments = some segs) :
    (((select (sortSegments segs) tr.stats.station).length : ℤ) ≤ m.j →
      (select (sortSegments segs) tr.stats.station).length ≠ 0 →
      segStage tr m =
        ({ m with segments := some (sortSegments segs), j := 0 },
          [Msg.endOfSegments])) ∧
    ((select (sortSegments segs) tr.stats.station).length = 0 →
      (segStage tr m).1.j = m.j) := by
  constructor
  · intro hj hmax
    simp only [segStage, hseg]
    rw [if_pos (And.intro hj hmax)]
  · intro hmax
    simp only [segStage, hseg]
    rw [if_neg (fun hc => hc.2 hmax)]

/-- Witness for C6: with one pick for station ABC and segment index 3, the
index wraps for station ABC and stays 3 for station XYZ. -/
theorem C6_segment_wrap_witness :
    (segStage trA { mQuiet with segments := some [pA], j := 3 } =
      ({ { mQuiet with segments := some [pA], j := 3 } with
          segments := some (sortSegments [pA]), j := 0 },
        [Msg.endOfSegments])) ∧
    (segStage trB { mQuiet with segments := some [pA], j := 3 }).1.j = 3 :=
  ⟨(C6_segment_wrap trA { mQuiet with segments := some [pA], j := 3 } [pA]
      rfl).1 (by decide) (by decide),
   (C6_segment_wrap trB { mQuiet with segments := some [pA], j := 3 } [pA]
      rfl).2 (by decide)⟩

/-- C9: applying a pick with set_seg_fw enabled widens the frequency window
by 0.05 mHz on each side of the pick's window, while with set_seg_tw the
time window is set to exactly the pick's window. -/
theorem C9_fw_widened (p : Pick) (m : Main) :
    (m.set_seg_fw = true →
      (applyPick p m).fw = some (p.fw1 - 0.05, p.fw2 + 0.05)) ∧
    (m.set_seg_tw = true →
      (applyPick p m).tw = some (p.tw1, p.tw2)) := by
  constructor
  · intro hfw
    unfold applyPick
    cases htw : m.set_seg_tw <;> simp [htw, hfw]
  · intro htw
    unfold applyPick
    cases hfw : m.set_seg_fw <;> simp [htw, hfw]

/-- Witness for C9 at the fixture pick with both flags enabled. -/
theorem C9_fw_widened_witness :
    (applyPick pA { mQuiet with set_seg_fw := true }).fw =
      some (pA.fw1 - 0.05, pA.fw2 + 0.05) ∧
    (applyPick pA { mQuiet with set_seg_fw := true }).tw =
      some (pA.tw1, pA.tw2) :=
  ⟨(C9_fw_widened pA { mQuiet with set_seg_fw := true }).1 rfl,
   (C9_fw_widened pA { mQuiet with set_seg_fw := true }).2 rfl⟩

/- Projection lemmas: each loop stage leaves the state fields it does not
assign untouched. -/

theorem twReset_segments (m : Main) : (twReset m).segments = m.segments := by
  unfold twReset
  split <;> rfl

theorem twReset_j (m : Main) : (twReset m).j = m.j := by
  unfold twReset
  split <;> rfl

theorem twReset_mf (m : Main) : (twReset m).mf = m.mf := by
  unfold twReset
  split <;> rfl

theorem twReset_current_station (m : Main) :
    (twReset m).current_station = m.current_station := by
  unfold twReset
  split <;> rfl

theorem twDefault_mf (O : Oracles) (tr : Trace) (m : Main) :
    (twDefault O tr m).2.mf = m.mf := by
  unfold twDefault
  split <;> rfl

theorem fwDefault_mf (O : Oracles) (m : Main) :
    (fwDefault O m).2.mf = m.mf := by
  unfold fwDefault
  split <;> rfl

theorem qOverride_mf (tw : ℚ × ℚ) (m : Main) :
    (qOverride tw m).2.1.mf = m.mf := by
  unfold qOverride
  split <;> rfl

theorem twDefaults_mf (O : Oracles) (tr : Trace) (m : Main) :
    (twDefaults O tr m).2.1.mf = m.mf := by
  simp only [twDefaults, qOverride_mf, fwDefault_mf, twDefault_mf]

theorem twDefault_current_station (O : Oracles) (tr : Trace) (m : Main) :
    (twDefault O tr m).2.current_station = m.current_station := by
  unfold twDefault
  split <;> rfl

theorem fwDefault_current_station (O : Oracles) (m : Main) :
    (fwDefault O m).2.current_station = m.current_station := by
  unfold fwDefault
  split <;> rfl

theorem qOverride_current_station (tw : ℚ × ℚ) (m : Main) :
    (qOverride tw m).2.1.current_station = m.current_station := by
  unfold qOverride
  split <;> rfl

theorem twDefaults_current_station (O : Oracles) (tr : Trace) (m : Main) :
    (twDefaults O tr m).2.1.current_station = m.current_station := by
  simp only [twDefaults, qOverride_current_station, fwDefault_current_station,
    twDefault_current_station]

theorem qOverride_log (tw : ℚ × ℚ) (m : Main) (ls : List MfLine) :
    Msg.misfitReport ls ∉ (qOverride tw m).2.2 := by
  unfold qOverride
  split <;> simp

theorem twDefaults_log (O : Oracles) (tr : Trace) (m : Main) (ls : List MfLine) :
    Msg.misfitReport ls ∉ (twDefaults O tr m).2.2 := by
  simp only [twDefaults]
  exact qOverride_log _ _ ls

theorem stationPrint_mf (tr : Trace) (m : Main) (s : List StatusLine) :
    (stationPrint tr m s).1.mf = m.mf := by
  unfold stationPrint
  split <;> rfl

theorem stationPrint_log (tr : Trace) (m : Main) (s : List StatusLine) :
    (stationPrint tr m s).2 = [] ∨ (stationPrint tr m s).2 = [Msg.status s] := by
  unfold stationPrint
  split
  · exact Or.inr rfl
  · exact Or.inl rfl

theorem stationPrint_changed (tr : Trace) (m : Main) (s : List StatusLine)
    (h : m.current_station ≠ some tr.stats.station) :
    stationPrint tr m s =
      ({ m with current_station := some tr.stats.station }, [Msg.status s]) := by
  unfold stationPrint
  rw [if_pos h]

theorem stationPrint_log_mem (tr : Trace) (m : Main) (s : List StatusLine)
    (x : Msg) (hx : x ∈ (stationPrint tr m s).2) : x = Msg.status s := by
  unfold stationPrint at hx
  split at hx
  · simpa using hx
  · simp at hx

theorem applyPick_mf (p : Pick) (m : Main) : (applyPick p m).mf = m.mf := by
  simp only [applyPick]
  split_ifs <;> rfl

theorem applyPick_current_station (p : Pick) (m : Main) :
    (applyPick p m).current_station = m.current_station := by
  simp only [applyPick]
  split_ifs <;> rfl

theorem selectPick_mf (m : Main) (tr : Trace) :
    (selectPick m tr).2.1.mf = m.mf := by
  unfold selectPick
  split
  · rfl
  · split
    · exact applyPick_mf _ _
    · rfl

theorem selectPick_current_station (m : Main) (tr : Trace) :
    (selectPick m tr).2.1.current_station = m.current_station := by
  unfold selectPick
  split
  · rfl
  · split
    · exact applyPick_current_station _ _
    · rfl

theorem plotStep_eq (m : Main) : plotStep m = m := by
  unfold plotStep plot_spectrum
  split <;> rfl

theorem preMisfit_pick (O : Oracles) (tr : Trace) (m : Main) :
    (preMisfit O tr m).pick = (selectPick (twReset m) tr).1 := by
  simp only [preMisfit]

theorem preMisfit_mf (O : Oracles) (tr : Trace) (m : Main) :
    (preMisfit O tr m).m.mf = m.mf := by
  simp only [preMisfit, stationPrint_mf, twDefaults_mf, selectPick_mf,
    twReset_mf]

theorem preMisfit_log (O : Oracles) (tr : Trace) (m : Main) (ls : List MfLine) :
    Msg.misfitReport ls ∉ (preMisfit O tr m).log := by
  intro hmem
  simp only [preMisfit, List.mem_append] at hmem
  rcases hmem with h | h
  · exact twDefaults_log _ _ _ ls h
  · exact Msg.noConfusion (stationPrint_log_mem _ _ _ _ h)

theorem preMisfit_status_printed (O : Oracles) (tr : Trace) (m : Main)
    (hch : m.current_station ≠ some tr.stats.station) :
    Msg.status (preMisfit O tr m).status ∈ (preMisfit O tr m).log := by
  have hcs : (twDefaults O tr (selectPick (twReset m) tr).2.1).2.1.current_station ≠
      some tr.stats.station := by
    rw [twDefaults_current_station, selectPick_current_station,
      twReset_current_station]
    exact hch
  simp only [preMisfit]
  rw [stationPrint_changed _ _ _ hcs]
  simp

/-- C4: when segments are loaded but selecting the j-th pick for the
current station raises IndexError, the error is caught: the pick stays
None, the no-picked-segments warning is part of the status output (printed
whenever the station changed), the pass still proceeds to the input wait,
and no misfit or SNR statistics are computed for the station (the stored
misfit is untouched and no misfit report is printed). -/
theorem C4_missing_pick (O : Oracles) (tr : Trace) (strs : List Trace)
    (m : Main) (segs : List Pick)
    (hseg : m.segments = some segs)
    (hj : pyGet (select segs tr.stats.station) m.j = none) :
    (recalcStage O tr strs m).pick = none ∧
    (recalcStage O tr strs m).ctl = RCtl.proceed ∧
    StatusLine.noPickedSegments tr.stats.station ∈
      (recalcStage O tr strs m).status ∧
    (recalcStage O tr strs m).m.mf = m.mf ∧
    (∀ ls, Msg.misfitReport ls ∉ (recalcStage O tr strs m).log) ∧
    (m.current_station ≠ some tr.stats.station →
      Msg.status (recalcStage O tr strs m).status ∈
        (recalcStage O tr strs m).log) := by
  have hsel : selectPick (twReset m) tr =
      (none, twReset m, [StatusLine.noPickedSegments tr.stats.station]) := by
    simp only [selectPick, twReset_segments, hseg, twReset_j, hj]
  have hpick : (preMisfit O tr m).pick = none := by
    rw [preMisfit_pick, hsel]
  refine ⟨?_, ?_, ?_, ?_, ?_, ?_⟩
  · simp only [recalcStage, hpick]
  · simp only [recalcStage, hpick]
  · simp only [recalcStage, hpick]
    simp only [preMisfit, hsel]
    simp
  · simp only [recalcStage, hpick, plotStep_eq]
    exact preMisfit_mf O tr m
  · intro ls
    simp only [recalcStage, hpick]
    exact preMisfit_log O tr m ls
  · intro hch
    simp only [recalcStage, hpick]
    exact preMisfit_status_printed O tr m hch

/-- Witness for C4: station XYZ has no pick in the fixture segment list. -/
theorem C4_missing_pick_witness :
    (recalcStage oracle0 trB [] { mQuiet with segments := some [pA] }).pick =
      none ∧
    (recalcStage oracle0 trB [] { mQuiet with segments := some [pA] }).ctl =
      RCtl.proceed ∧
    StatusLine.noPickedSegments trB.stats.station ∈
      (recalcStage oracle0 trB [] { mQuiet with segments := some [pA] }).status ∧
    (recalcStage oracle0 trB [] { mQuiet with segments := some [pA] }).m.mf =
      ({ mQuiet with segments := some [pA] } : Main).mf ∧
    (∀ ls, Msg.misfitReport ls ∉
      (recalcStage oracle0 trB [] { mQuiet with segments := some [pA] }).log) ∧
    (({ mQuiet with segments := some [pA] } : Main).current_station ≠
        some trB.stats.station →
      Msg.status
          (recalcStage oracle0 trB [] { mQuiet with segments := some [pA] }).status ∈
        (recalcStage oracle0 trB [] { mQuiet with segments := some [pA] }).log) :=
  C4_missing_pick oracle0 trB [] { mQuiet with segments := some [pA] } [pA]
    rfl (by decide)

theorem remove_station_spec (m : Main) : (remove_station m).spec = m.spec := by
  unfold remove_station
  split <;> rfl

theorem remove_station_mf (m : Main) : (remove_station m).mf = m.mf := by
  unfold remove_station
  split <;> rfl

theorem remove_station_st_work (m : Main) (t : Trace) (htr : m.tr = some t) :
    (remove_station m).st_work =
      m.st_work.filter (fun x => !(x.stats.station == t.stats.station)) := by
  unfold remove_station
  rw [htr]

theorem mfUpdate_spec (mf : List (ℚ × ℚ)) (l : List MfLine) (m : Main) :
    (mfUpdate mf l m).1.spec = m.spec := by
  unfold mfUpdate
  split <;> rfl

theorem mfUpdate_min_snr (mf : List (ℚ × ℚ)) (l : List MfLine) (m : Main) :
    (mfUpdate mf l m).1.min_snr = m.min_snr := by
  unfold mfUpdate
  split <;> rfl

theorem mfUpdate_max_mf (mf : List (ℚ × ℚ)) (l : List MfLine) (m : Main) :
    (mfUpdate mf l m).1.max_mf = m.max_mf := by
  unfold mfUpdate
  split <;> rfl

theorem mfUpdate_st_work (mf : List (ℚ × ℚ)) (l : List MfLine) (m : Main) :
    (mfUpdate mf l m).1.st_work = m.st_work := by
  unfold mfUpdate
  split <;> rfl

theorem mfUpdate_tr (mf : List (ℚ × ℚ)) (l : List MfLine) (m : Main) :
    (mfUpdate mf l m).1.tr = m.tr := by
  unfold mfUpdate
  split <;> rfl

theorem mfUpdate_mf (mf : List (ℚ × ℚ)) (l : List MfLine) (m : Main) :
    (mfUpdate mf l m).1.mf = some mf := by
  unfold mfUpdate
  split
  · rfl
  · rename_i h
    push_neg at h
    exact h

theorem misfitSection_spec (O : Oracles) (strs : List Trace)
    (spec : SpectrumObj) (p : Pick) (pm : PreOut) (m : Main) :
    (misfitSection O strs spec p pm m).m.spec = m.spec := by
  simp only [misfitSection, plotStep_eq]
  repeat' split
  all_goals simp only [remove_station_spec, mfUpdate_spec]

theorem misfitSection_mf (O : Oracles) (strs : List Trace)
    (spec : SpectrumObj) (p : Pick) (pm : PreOut) (m : Main) :
    (misfitSection O strs spec p pm m).m.mf = some (O.misfit spec p) := by
  simp only [misfitSection, plotStep_eq]
  repeat' split
  all_goals simp only [remove_station_mf, mfUpdate_mf]

/-- C8: on every pass of the recalc body (which the loop enters whenever
the recalc flag is set; the flag starts true and the input wait
re-establishes it before every pass), a fresh spectrum object built from
the current trace and time window is stored in the state, and whenever a
pick exists and synthetics are loaded the misfit statistics are recomputed
against that pick and stored. -/
theorem C8_recompute_each_step (O : Oracles) (tr : Trace) (strs : List Trace)
    (m : Main) :
    (recalcStage O tr strs m).m.spec = some (builtSpec O tr strs m) ∧
    (∀ p, (preMisfit O tr m).pick = some p →
      (preMisfit O tr m).m.syn ≠ none →
      (recalcStage O tr strs m).m.mf =
        some (O.misfit (builtSpec O tr strs m) p)) ∧
    (∀ m2 : Main, (preInputState m2).recalc = true) := by
  refine ⟨?_, ?_, fun m2 => rfl⟩
  · rcases hp : (preMisfit O tr m).pick with _ | p
    · simp only [recalcStage, hp, plotStep_eq]
      rfl
    · rcases hs : (preMisfit O tr m).m.syn with _ | ss
      · simp only [recalcStage, hp, hs, plotStep_eq]
        rfl
      · simp only [recalcStage, hp, hs, misfitSection_spec]
        rfl
  · intro p hp hsyn
    rcases hs : (preMisfit O tr m).m.syn with _ | ss
    · exact absurd hs hsyn
    · simp only [recalcStage, hp, hs, misfitSection_mf]
      rfl

/-- Witness for C8 at the fixture threshold state, where the pick exists
and synthetics are loaded. -/
theorem C8_recompute_each_step_witness :
    (recalcStage oracle0 trA [trA] mThresh).m.mf =
      some (oracle0.misfit (builtSpec oracle0 trA [trA] mThresh) pA) :=
  (C8_recompute_each_step oracle0 trA [trA] mThresh).2.1 pA (by decide)
    (by decide)

/-- C7: if the FWHM computation raises an exception while the misfit
statistics are computed (the misfit section of the recalc body), the
exception text is inserted inline into the printed misfit report, and
processing continues: the misfit list itself is still computed, stored and
reported for the station, and the section ends in the normal proceed
outcome when the threshold filters are not set. -/
theorem C7_fwhm_exception (O : Oracles) (strs : List Trace)
    (spec : SpectrumObj) (p : Pick) (pm : PreOut) (m : Main) (e : String)
    (herr : O.signal2fwhm spec p = Except.error e)
    (hch : m.mf ≠ some (O.misfit spec p))
    (hmin : optQTruthy m.min_snr = false)
    (hmax : optQTruthy m.max_mf = false) :
    (misfitSection O strs spec p pm m).ctl = RCtl.proceed ∧
    (misfitSection O strs spec p pm m).m.mf = some (O.misfit spec p) ∧
    (misfitSection O strs spec p pm m).log =
      pm.log ++
        [Msg.misfitReport
          ([MfLine.snr (O.signal2noise spec p).1, MfLine.sfwhmrError e] ++
            (if (O.signal2noise spec p).2.2 then [MfLine.overlapWarning]
              else []) ++
            [MfLine.misfitsHeader] ++ mfEntries strs (O.misfit spec p))] := by
  simp [misfitSection, mfUpdate, mfLines, herr, hch, hmin, hmax, plotStep_eq]

/-- Witness for C7: the error-raising fixture oracle at the fixture pick
with no thresholds set. -/
theorem C7_fwhm_exception_witness :
    (misfitSection oracleErr [trA] (builtSpec oracleErr trA [trA] mThresh) pA
        (preMisfit oracleErr trA mThresh) mQuiet).ctl = RCtl.proceed ∧
    (misfitSection oracleErr [trA] (builtSpec oracleErr trA [trA] mThresh) pA
        (preMisfit oracleErr trA mThresh) mQuiet).m.mf =
      some (oracleErr.misfit (builtSpec oracleErr trA [trA] mThresh) pA) ∧
    (misfitSection oracleErr [trA] (builtSpec oracleErr trA [trA] mThresh) pA
        (preMisfit oracleErr trA mThresh) mQuiet).log =
      (preMisfit oracleErr trA mThresh).log ++
        [Msg.misfitReport
          ([MfLine.snr
              (oracleErr.signal2noise (builtSpec oracleErr trA [trA] mThresh)
                pA).1,
            MfLine.sfwhmrError "no data"] ++
            (if (oracleErr.signal2noise (builtSpec oracleErr trA [trA] mThresh)
                pA).2.2 then [MfLine.overlapWarning] else []) ++
            [MfLine.misfitsHeader] ++
            mfEntries [trA]
              (oracleErr.misfit (builtSpec oracleErr trA [trA] mThresh) pA))] :=
  C7_fwhm_exception oracleErr [trA] (builtSpec oracleErr trA [trA] mThresh) pA
    (preMisfit oracleErr trA mThresh) mQuiet "no data" rfl (by decide)
    (by decide) (by decide)

theorem misfitSection_removedSnr (O : Oracles) (strs : List Trace)
    (spec : SpectrumObj) (p : Pick) (pm : PreOut) (m : Main) (t : Trace)
    (htr : m.tr = some t)
    (htru : optQTruthy m.min_snr = true)
    (hlt : (O.signal2noise spec p).1 < m.min_snr.getD 0) :
    (misfitSection O strs spec p pm m).ctl = RCtl.removedSnr ∧
    (misfitSection O strs spec p pm m).m.st_work =
      m.st_work.filter (fun x => !(x.stats.station == t.stats.station)) := by
  have hcond :
      optQTruthy (mfUpdate (O.misfit spec p) (mfLines O strs spec p) m).1.min_snr =
        true ∧
      (O.signal2noise spec p).1 <
        (mfUpdate (O.misfit spec p) (mfLines O strs spec p) m).1.min_snr.getD 0 := by
    rw [mfUpdate_min_snr]
    exact ⟨htru, hlt⟩
  simp only [misfitSection]
  rw [if_pos hcond]
  refine ⟨rfl, ?_⟩
  rw [remove_station_st_work _ t (by rw [mfUpdate_tr]; exact htr),
    mfUpdate_st_work]

theorem misfitSection_removedMf (O : Oracles) (strs : List Trace)
    (spec : SpectrumObj) (p : Pick) (pm : PreOut) (m : Main) (t : Trace)
    (htr : m.tr = some t)
    (hno : ¬ (optQTruthy m.min_snr = true ∧
      (O.signal2noise spec p).1 < m.min_snr.getD 0))
    (htru : optQTruthy m.max_mf = true)
    (c : ℚ × ℚ) (rest : List (ℚ × ℚ))
    (hmf : O.misfit spec p = c :: rest)
    (hgt : m.max_mf.getD 0 < c.2) :
    (misfitSection O strs spec p pm m).ctl = RCtl.removedMf ∧
    (misfitSection O strs spec p pm m).m.st_work =
      m.st_work.filter (fun x => !(x.stats.station == t.stats.station)) := by
  simp only [misfitSection]
  rw [hmf]
  rw [if_neg (fun hc => hno (by rw [mfUpdate_min_snr] at hc; exact hc))]
  rw [if_pos (show optQTruthy
      (mfUpdate (c :: rest) (mfLines O strs spec p) m).1.max_mf = true by
    rw [mfUpdate_max_mf]; exact htru)]
  dsimp only
  rw [if_pos (show
      (mfUpdate (c :: rest) (mfLines O strs spec p) m).1.max_mf.getD 0 < c.2 by
    rw [mfUpdate_max_mf]; exact hgt)]
  refine ⟨rfl, ?_⟩
  rw [remove_station_st_work _ t (by rw [mfUpdate_tr]; exact htr),
    mfUpdate_st_work]

/-- C1: in a recalc pass where a pick exists for the current station and
synthetics are loaded: if min_snr is set (truthy) and the computed SNR is
below it, the current station's traces are removed from the working stream
and the control outcome continues the loop to the next station (runLoop
recurses on removedSnr without an input wait); likewise, when the SNR
filter does not fire, if max_mf is set and the first synthetic's misfit
exceeds it, the station is removed and the loop continues. -/
theorem C1_threshold_removal (O : Oracles) (tr : Trace) (strs : List Trace)
    (m : Main) (p : Pick) (ss : List (List Trace))
    (hp : (preMisfit O tr m).pick = some p)
    (hs : (preMisfit O tr m).m.syn = some ss)
    (htr : (preMisfit O tr m).m.tr = some tr) :
    ((optQTruthy (preMisfit O tr m).m.min_snr = true ∧
        (O.signal2noise (builtSpec O tr strs m) p).1 <
          (preMisfit O tr m).m.min_snr.getD 0) →
      (recalcStage O tr strs m).ctl = RCtl.removedSnr ∧
      (recalcStage O tr strs m).m.st_work =
        (preMisfit O tr m).m.st_work.filter
          (fun x => !(x.stats.station == tr.stats.station))) ∧
    (¬ (optQTruthy (preMisfit O tr m).m.min_snr = true ∧
        (O.signal2noise (builtSpec O tr strs m) p).1 <
          (preMisfit O tr m).m.min_snr.getD 0) →
      optQTruthy (preMisfit O tr m).m.max_mf = true →
      ∀ c rest, O.misfit (builtSpec O tr strs m) p = c :: rest →
      (preMisfit O tr m).m.max_mf.getD 0 < c.2 →
      (recalcStage O tr strs m).ctl = RCtl.removedMf ∧
      (recalcStage O tr strs m).m.st_work =
        (preMisfit O tr m).m.st_work.filter
          (fun x => !(x.stats.station == tr.stats.station))) := by
  constructor
  · intro hcond
    simp only [recalcStage, hp, hs]
    exact misfitSection_removedSnr O strs _ p _ _ tr htr hcond.1 hcond.2
  · intro hno htru c rest hmf hgt
    simp only [recalcStage, hp, hs]
    exact misfitSection_removedMf O strs _ p _ _ tr htr hno htru c rest hmf hgt

/-- Witness for C1: the fixture SNR of 1 falls below a min_snr of 5 and an
alternative state trips the max_mf filter with a misfit of 7 against a
threshold of 5. -/
theorem C1_threshold_removal_witness :
    ((recalcStage oracle0 trA [trA] { mThresh with tr := some trA }).ctl =
        RCtl.removedSnr ∧
      (recalcStage oracle0 trA [trA] { mThresh with tr := some trA }).m.st_work =
        (preMisfit oracle0 trA { mThresh with tr := some trA }).m.st_work.filter
          (fun x => !(x.stats.station == trA.stats.station))) ∧
    ((recalcStage oracle0 trA [trA]
          { mThresh with tr := some trA, min_snr := none, max_mf := some 5 }).ctl =
        RCtl.removedMf ∧
      (recalcStage oracle0 trA [trA]
          { mThresh with tr := some trA, min_snr := none, max_mf := some 5 }).m.st_work =
        (preMisfit oracle0 trA
            { mThresh with
              tr := some trA, min_snr := none, max_mf := some 5 }).m.st_work.filter
          (fun x => !(x.stats.station == trA.stats.station))) :=
  ⟨(C1_threshold_removal oracle0 trA [trA] { mThresh with tr := some trA } pA
      [[trA]] (by decide) (by decide) (by decide)).1 ⟨by decide, by decide⟩,
   (C1_threshold_removal oracle0 trA [trA]
      { mThresh with tr := some trA, min_snr := none, max_mf := some 5 } pA
      [[trA]] (by decide) (by decide) (by decide)).2 (by decide) (by decide)
      (0, 7) [] (by decide) (by decide)⟩

theorem twReset_min_snr (m : Main) : (twReset m).min_snr = m.min_snr := by
  unfold twReset
  split <;> rfl

theorem twReset_max_mf (m : Main) : (twReset m).max_mf = m.max_mf := by
  unfold twReset
  split <;> rfl

theorem applyPick_min_snr (p : Pick) (m : Main) :
    (applyPick p m).min_snr = m.min_snr := by
  simp only [applyPick]
  split_ifs <;> rfl

theorem applyPick_max_mf (p : Pick) (m : Main) :
    (applyPick p m).max_mf = m.max_mf := by
  simp only [applyPick]
  split_ifs <;> rfl

theorem selectPick_min_snr (m : Main) (tr : Trace) :
    (selectPick m tr).2.1.min_snr = m.min_snr := by
  unfold selectPick
  split
  · rfl
  · split
    · exact applyPick_min_snr _ _
    · rfl

theorem selectPick_max_mf (m : Main) (tr : Trace) :
    (selectPick m tr).2.1.max_mf = m.max_mf := by
  unfold selectPick
  split
  · rfl
  · split
    · exact applyPick_max_mf _ _
    · rfl

theorem twDefault_min_snr (O : Oracles) (tr : Trace) (m : Main) :
    (twDefault O tr m).2.min_snr = m.min_snr := by
  unfold twDefault
  split <;> rfl

theorem twDefault_max_mf (O : Oracles) (tr : Trace) (m : Main) :
    (twDefault O tr m).2.max_mf = m.max_mf := by
  unfold twDefault
  split <;> rfl

theorem fwDefault_min_snr (O : Oracles) (m : Main) :
    (fwDefault O m).2.min_snr = m.min_snr := by
  unfold fwDefault
  split <;> rfl

theorem fwDefault_max_mf (O : Oracles) (m : Main) :
    (fwDefault O m).2.max_mf = m.max_mf := by
  unfold fwDefault
  split <;> rfl

theorem qOverride_min_snr (tw : ℚ × ℚ) (m : Main) :
    (qOverride tw m).2.1.min_snr = m.min_snr := by
  unfold qOverride
  split <;> rfl

theorem qOverride_max_mf (tw : ℚ × ℚ) (m : Main) :
    (qOverride tw m).2.1.max_mf = m.max_mf := by
  unfold qOverride
  split <;> rfl

theorem twDefaults_min_snr (O : Oracles) (tr : Trace) (m : Main) :
    (twDefaults O tr m).2.1.min_snr = m.min_snr := by
  simp only [twDefaults, qOverride_min_snr, fwDefault_min_snr,
    twDefault_min_snr]

theorem twDefaults_max_mf (O : Oracles) (tr : Trace) (m : Main) :
    (twDefaults O tr m).2.1.max_mf = m.max_mf := by
  simp only [twDefaults, qOverride_max_mf, fwDefault_max_mf, twDefault_max_mf]

theorem stationPrint_min_snr (tr : Trace) (m : Main) (s : List StatusLine) :
    (stationPrint tr m s).1.min_snr = m.min_snr := by
  unfold stationPrint
  split <;> rfl

theorem stationPrint_max_mf (tr : Trace) (m : Main) (s : List StatusLine) :
    (stationPrint tr m s).1.max_mf = m.max_mf := by
  unfold stationPrint
  split <;> rfl

theorem preMisfit_min_snr (O : Oracles) (tr : Trace) (m : Main) :
    (preMisfit O tr m).m.min_snr = m.min_snr := by
  simp only [preMisfit, stationPrint_min_snr, twDefaults_min_snr,
    selectPick_min_snr, twReset_min_snr]

theorem preMisfit_max_mf (O : Oracles) (tr : Trace) (m : Main) :
    (preMisfit O tr m).m.max_mf = m.max_mf := by
  simp only [preMisfit, stationPrint_max_mf, twDefaults_max_mf,
    selectPick_max_mf, twReset_max_mf]

theorem misfitSection_ctl_snr (O : Oracles) (strs : List Trace)
    (spec : SpectrumObj) (p : Pick) (pm : PreOut) (m : Main) :
    (misfitSection O strs spec p pm m).ctl = RCtl.removedSnr →
    optQTruthy m.min_snr = true := by
  simp only [misfitSection]
  split
  · rename_i hcond
    intro _
    rw [mfUpdate_min_snr] at hcond
    exact hcond.1
  · split
    · split
      · split
        · intro h
          simp at h
        · intro h
          simp at h
      · intro h
        simp at h
    · intro h
      simp at h

theorem misfitSection_ctl_mf (O : Oracles) (strs : List Trace)
    (spec : SpectrumObj) (p : Pick) (pm : PreOut) (m : Main) :
    (misfitSection O strs spec p pm m).ctl = RCtl.removedMf →
    optQTruthy m.max_mf = true := by
  simp only [misfitSection]
  split
  · intro h
    simp at h
  · split
    · rename_i hmax
      rw [mfUpdate_max_mf] at hmax
      split
      · split
        · intro _
          exact hmax
        · intro h
          simp at h
      · intro h
        simp at h
    · intro h
      simp at h

theorem recalcStage_ctl_snr (O : Oracles) (tr : Trace) (strs : List Trace)
    (m : Main) :
    (recalcStage O tr strs m).ctl = RCtl.removedSnr →
    optQTruthy m.min_snr = true := by
  rcases hp : (preMisfit O tr m).pick with _ | p
  · simp only [recalcStage, hp]
    intro h
    simp at h
  · rcases hs : (preMisfit O tr m).m.syn with _ | ss
    · simp only [recalcStage, hp, hs]
      intro h
      simp at h
    · simp only [recalcStage, hp, hs]
      intro h
      have h2 := misfitSection_ctl_snr _ _ _ _ _ _ h
      rw [show ({ (preMisfit O tr m).m with
          spec := some (specFor tr strs (preMisfit O tr m).tw (preMisfit O tr m).m),
          startlabel := some (O.flabel (specFor tr strs (preMisfit O tr m).tw
            (preMisfit O tr m).m) (preMisfit O tr m).fw.1),
          endlabel := some (O.flabel (specFor tr strs (preMisfit O tr m).tw
            (preMisfit O tr m).m) (preMisfit O tr m).fw.2) } : Main).min_snr =
          (preMisfit O tr m).m.min_snr from rfl] at h2
      rw [preMisfit_min_snr] at h2
      exact h2

theorem recalcStage_ctl_mf (O : Oracles) (tr : Trace) (strs : List Trace)
    (m : Main) :
    (recalcStage O tr strs m).ctl = RCtl.removedMf →
    optQTruthy m.max_mf = true := by
  rcases hp : (preMisfit O tr m).pick with _ | p
  · simp only [recalcStage, hp]
    intro h
    simp at h
  · rcases hs : (preMisfit O tr m).m.syn with _ | ss
    · simp only [recalcStage, hp, hs]
      intro h
      simp at h
    · simp only [recalcStage, hp, hs]
      intro h
      have h2 := misfitSection_ctl_mf _ _ _ _ _ _ h
      rw [show ({ (preMisfit O tr m).m with
          spec := some (specFor tr strs (preMisfit O tr m).tw (preMisfit O tr m).m),
          startlabel := some (O.flabel (specFor tr strs (preMisfit O tr m).tw
            (preMisfit O tr m).m) (preMisfit O tr m).fw.1),
          endlabel := some (O.flabel (specFor tr strs (preMisfit O tr m).tw
            (preMisfit O tr m).m) (preMisfit O tr m).fw.2) } : Main).max_mf =
          (preMisfit O tr m).m.max_mf from rfl] at h2
      rw [preMisfit_max_mf] at h2
      exact h2

theorem wrapStage_min_snr (m : Main) : (wrapStage m).1.min_snr = m.min_snr := by
  unfold wrapStage
  split
  · split <;> rfl
  · rfl

theorem wrapStage_max_mf (m : Main) : (wrapStage m).1.max_mf = m.max_mf := by
  unfold wrapStage
  split
  · split <;> rfl
  · rfl

theorem segStage_min_snr (tr : Trace) (m : Main) :
    (segStage tr m).1.min_snr = m.min_snr := by
  simp only [segStage]
  split
  · rfl
  · split <;> rfl

theorem segStage_max_mf (tr : Trace) (m : Main) :
    (segStage tr m).1.max_mf = m.max_mf := by
  simp only [segStage]
  split
  · rfl
  · split <;> rfl

theorem withLog_ctl (l : List Msg) (r : IterResult) :
    (withLog l r).ctl = r.ctl := rfl

theorem withLog_asked (l : List Msg) (r : IterResult) :
    (withLog l r).asked = r.asked := rfl

theorem inputStage_asked (O : Oracles) (pick : Option Pick) (m : Main) :
    (inputStage O pick m).asked = true := by
  unfold inputStage
  split <;> rfl

/-- C5 counterexample: the claim that every loop pass that proceeds to the
next pass first blocks on keyboard input is false: at the fixture threshold
state the pass removes the station and continues without consulting the
input processor. -/
theorem C5_counterexample :
    ¬ (∀ (O : Oracles) (pick : Option Pick) (m : Main),
        (loopIter O pick m).ctl.continues = true →
        (loopIter O pick m).asked = true) := by
  intro h
  have h2 := h oracle0 none mThresh (by decide)
  exact absurd h2 (by decide)

/-- C5 amended: every loop pass that continues to another pass either
blocked on the keyboard input processor, or removed the current station
through the SNR threshold filter (possible only when min_snr is set) or
through the misfit threshold filter (possible only when max_mf is set);
exit passes do not continue. -/
theorem C5_input_wait_amended (O : Oracles) (pick : Option Pick) (m : Main) :
    (loopIter O pick m).ctl.continues = true →
    ((loopIter O pick m).asked = true ∨
      ((loopIter O pick m).ctl = Ctl.removedSnr ∧
        optQTruthy m.min_snr = true) ∨
      ((loopIter O pick m).ctl = Ctl.removedMf ∧
        optQTruthy m.max_mf = true)) := by
  unfold loopIter
  split
  · intro h
    simp [Ctl.continues] at h
  · simp only [withLog_ctl, withLog_asked]
    unfold iterBody
    split
    · intro h
      simp [Ctl.continues] at h
    · rename_i tr hg
      dsimp only
      split
      · intro h
        simp [Ctl.continues] at h
      · rename_i strs hsyn
        split
        · split
          · intro _
            refine Or.inl ?_
            simp only [withLog_asked]
            exact inputStage_asked _ _ _
          · rename_i hctl
            intro _
            refine Or.inr (Or.inl ⟨rfl, ?_⟩)
            have h2 := recalcStage_ctl_snr _ _ _ _ hctl
            simp only [segStage_min_snr, wrapStage_min_snr] at h2
            exact h2
          · rename_i hctl
            intro _
            refine Or.inr (Or.inr ⟨rfl, ?_⟩)
            have h2 := recalcStage_ctl_mf _ _ _ _ hctl
            simp only [segStage_max_mf, wrapStage_max_mf] at h2
            exact h2
          · intro h
            simp [Ctl.continues] at h
        · intro _
          refine Or.inl ?_
          simp only [withLog_asked]
          exact inputStage_asked _ _ _

/-- Witness for the amended C5 at the fixture threshold state: the pass
continues via SNR removal with min_snr set. -/
theorem C5_input_wait_amended_witness :
    (loopIter oracle0 none mThresh).asked = true ∨
      ((loopIter oracle0 none mThresh).ctl = Ctl.removedSnr ∧
        optQTruthy mThresh.min_snr = true) ∨
      ((loopIter oracle0 none mThresh).ctl = Ctl.removedMf ∧
        optQTruthy mThresh.max_mf = true) :=
  C5_input_wait_amended oracle0 none mThresh (by decide)

theorem applyPick_segments (p : Pick) (m : Main) :
    (applyPick p m).segments = m.segments := by
  simp only [applyPick]
  split_ifs <;> rfl

theorem selectPick_segments (m : Main) (tr : Trace) :
    (selectPick m tr).2.1.segments = m.segments := by
  unfold selectPick
  split
  · rfl
  · split
    · exact applyPick_segments _ _
    · rfl

theorem twDefault_segments (O : Oracles) (tr : Trace) (m : Main) :
    (twDefault O tr m).2.segments = m.segments := by
  unfold twDefault
  split <;> rfl

theorem fwDefault_segments (O : Oracles) (m : Main) :
    (fwDefault O m).2.segments = m.segments := by
  unfold fwDefault
  split <;> rfl

theorem qOverride_segments (tw : ℚ × ℚ) (m : Main) :
    (qOverride tw m).2.1.segments = m.segments := by
  unfold qOverride
  split <;> rfl

theorem twDefaults_segments (O : Oracles) (tr : Trace) (m : Main) :
    (twDefaults O tr m).2.1.segments = m.segments := by
  simp only [twDefaults, qOverride_segments, fwDefault_segments,
    twDefault_segments]

theorem stationPrint_segments (tr : Trace) (m : Main) (s : List StatusLine) :
    (stationPrint tr m s).1.segments = m.segments := by
  unfold stationPrint
  split <;> rfl

theorem preMisfit_segments (O : Oracles) (tr : Trace) (m : Main) :
    (preMisfit O tr m).m.segments = m.segments := by
  simp only [preMisfit, stationPrint_segments, twDefaults_segments,
    selectPick_segments, twReset_segments]

theorem remove_station_segments (m : Main) :
    (remove_station m).segments = m.segments := by
  unfold remove_station
  split <;> rfl

theorem mfUpdate_segments (mf : List (ℚ × ℚ)) (l : List MfLine) (m : Main) :
    (mfUpdate mf l m).1.segments = m.segments := by
  unfold mfUpdate
  split <;> rfl

theorem misfitSection_segments (O : Oracles) (strs : List Trace)
    (spec : SpectrumObj) (p : Pick) (pm : PreOut) (m : Main) :
    (misfitSection O strs spec p pm m).m.segments = m.segments := by
  simp only [misfitSection, plotStep_eq]
  repeat' split
  all_goals simp only [remove_station_segments, mfUpdate_segments]

theorem recalcStage_segments (O : Oracles) (tr : Trace) (strs : List Trace)
    (m : Main) :
    (recalcStage O tr strs m).m.segments = m.segments := by
  rcases hp : (preMisfit O tr m).pick with _ | p
  · simp only [recalcStage, hp, plotStep_eq]
    exact preMisfit_segments O tr m
  · rcases hs : (preMisfit O tr m).m.syn with _ | ss
    · simp only [recalcStage, hp, hs, plotStep_eq]
      exact preMisfit_segments O tr m
    · simp only [recalcStage, hp, hs, misfitSection_segments]
      exact preMisfit_segments O tr m

theorem wrapStage_segments (m : Main) :
    (wrapStage m).1.segments = m.segments := by
  unfold wrapStage
  split
  · split <;> rfl
  · rfl

theorem segStage_none (tr : Trace) (m : Main) (h : m.segments = none) :
    segStage tr m = (m, []) := by
  simp only [segStage, h]

theorem inputStage_segments_none (O : Oracles) (pick : Option Pick) (m : Main)
    (hm : m.segments = none)
    (hin : ∀ p mm out, O.process_input p mm = some out →
      mm.segments = none → out.2.segments = none) :
    (inputStage O pick m).m.segments = none := by
  unfold inputStage
  split
  · exact hm
  · rename_i out hpi
    exact hin _ _ _ hpi hm

theorem loopIter_segments_none (O : Oracles) (pick : Option Pick) (m : Main)
    (hm : m.segments = none)
    (hin : ∀ p mm out, O.process_input p mm = some out →
      mm.segments = none → out.2.segments = none) :
    (loopIter O pick m).m.segments = none := by
  have hw : (wrapStage m).1.segments = none := by
    rw [wrapStage_segments]
    exact hm
  unfold loopIter
  split
  · exact hm
  · show (iterBody O pick (wrapStage m).1).m.segments = none
    unfold iterBody
    split
    · exact hw
    · rename_i tr hg
      dsimp only
      rw [segStage_none tr
        { (wrapStage m).1 with tr := some tr, syn_trs := [] } hw]
      split
      · exact hw
      · rename_i strs hsyn
        split
        · have hr : (recalcStage O tr strs
              { (wrapStage m).1 with tr := some tr, syn_trs := strs }).m.segments =
              none := by
            rw [recalcStage_segments]
            exact hw
          split
          · show (inputStage O _ _).m.segments = none
            exact inputStage_segments_none _ _ _ hr hin
          · exact hr
          · exact hr
          · exact hr
        · show (inputStage O _ _).m.segments = none
          exact inputStage_segments_none _ _ _ hw hin

theorem runLoop_segments_none (O : Oracles)
    (hin : ∀ p mm out, O.process_input p mm = some out →
      mm.segments = none → out.2.segments = none) :
    ∀ (n : ℕ) (pick : Option Pick) (m : Main), m.segments = none →
    ∀ s, runLoop O n pick m = RunResult.ret s → s = none := by
  intro n
  induction n with
  | zero =>
    intro pick m hm s hr
    exact RunResult.noConfusion hr
  | succ k ih =>
    intro pick m hm s hr
    have hiter := loopIter_segments_none O pick m hm hin
    unfold runLoop at hr
    dsimp only at hr
    rcases hctl : (loopIter O pick m).ctl with _ | _ | _ | _ | _ | e <;>
      rw [hctl] at hr <;> dsimp only at hr
    · injection hr with h2
      rw [← h2]
      exact hiter
    · injection hr with h2
      rw [← h2]
      exact hiter
    · exact ih (loopIter O pick m).pick (loopIter O pick m).m hiter s hr
    · exact ih (loopIter O pick m).pick (loopIter O pick m).m hiter s hr
    · exact ih (loopIter O pick m).pick (loopIter O pick m).m hiter s hr
    · exact RunResult.noConfusion hr

theorem set_defaults_segments (m : Main) :
    (set_defaults_init_main m).segments = none := by
  simp only [set_defaults_init_main]
  repeat' split
  all_goals rfl

theorem set_defaults_segment_file (m : Main) :
    (set_defaults_init_main m).segment_file = m.segment_file := by
  simp only [set_defaults_init_main]
  repeat' split
  all_goals rfl

theorem read_data_segments (d : DataIn) (m : Main) :
    (read_data d m).segments = m.segments := rfl

theorem runSetup_segments_none (O : Oracles) (d : DataIn) (iargs : Main)
    (hseg : iargs.segment_file = none)
    (hsearch : ∀ s mm, (O.search_stream s mm).segments = mm.segments) :
    (runSetup O d iargs).segments = none := by
  unfold runSetup
  dsimp only
  rw [show (set_defaults_init_main iargs).segment_file = none from
    (set_defaults_segment_file iargs).trans hseg]
  dsimp only
  split
  · rw [hsearch, read_data_segments]
    exact set_defaults_segments iargs
  · rw [read_data_segments]
    exact set_defaults_segments iargs

/-- C10: the while loop of run returns the segments of the state at every
exit: the quit exit (the input processor returning None) returns the
current segments, the no-data exit returns the current segments, and when
no segment file was given the setup leaves the segments None and every
normal return of the loop is None (provided the external input processor
and stream search do not conjure segments, which the spec does not give
them). -/
theorem C10_run_returns_segments (O : Oracles) :
    (∀ (n : ℕ) (pick : Option Pick) (m : Main),
      (loopIter O pick m).ctl = Ctl.breakQuit →
      runLoop O (n + 1) pick m =
        RunResult.ret ((loopIter O pick m).m.segments)) ∧
    (∀ (n : ℕ) (pick : Option Pick) (m : Main), m.st_work = [] →
      runLoop O (n + 1) pick m = RunResult.ret m.segments) ∧
    ((∀ s mm, (O.search_stream s mm).segments = mm.segments) →
      (∀ p mm out, O.process_input p mm = some out →
        mm.segments = none → out.2.segments = none) →
      ∀ (d : DataIn) (iargs : Main), iargs.segment_file = none →
      ∀ (fuel : ℕ) (pick : Option Pick) (s : Option (List Pick)),
        runLoop O fuel pick (runSetup O d iargs) = RunResult.ret s →
        s = none) := by
  refine ⟨?_, ?_, ?_⟩
  · intro n pick m h
    unfold runLoop
    dsimp only
    rw [h]
  · intro n pick m hw
    have hctl : loopIter O pick m =
        { ctl := Ctl.breakNoData, m := m, pick := pick, log := [Msg.noData],
          asked := false } := by
      unfold loopIter
      rw [if_pos (show m.st_work.isEmpty = true by rw [hw]; rfl)]
    unfold runLoop
    dsimp only
    rw [hctl]
  · intro hsearch hin d iargs hseg fuel pick s hr
    exact runLoop_segments_none O hin fuel pick _
      (runSetup_segments_none O d iargs hseg hsearch) s hr

/-- Witness for C10: the quitting fixture oracle exits through all three
paths with the segments value (None) returned. -/
theorem C10_run_returns_segments_witness :
    runLoop oracleQuit 1 none mQuiet =
      RunResult.ret ((loopIter oracleQuit none mQuiet).m.segments) ∧
    runLoop oracleQuit 1 none mEmpty = RunResult.ret mEmpty.segments ∧
    (none : Option (List Pick)) = none :=
  ⟨(C10_run_returns_segments oracleQuit).1 0 none mQuiet (by decide),
   (C10_run_returns_segments oracleQuit).2.1 0 none mEmpty rfl,
   (C10_run_returns_segments oracleQuit).2.2 (fun s mm => rfl)
     (fun p mm out h => Option.noConfusion h) dIn0 argsNoSeg rfl 1 none none
     (by decide)⟩
